import Mathlib

/-!
Formal model of the welcomebonushunter.com leads-extractor pipeline.

The model is a shallow embedding of the repository's Python sources:

* `sync_to_mysql.py` — `LeadCleaner.clean_email`, `LeadCleaner.clean_phone`,
  `LeadCleaner.calculate_quality_score`, `MySQLSync.process_lead`,
  `MySQLSync.save_lead`, `WordPressSync.fetch_leads`;
* `unified_sync.py` — `UnifiedSyncService.process_lead`,
  `UnifiedSyncService.save_lead_to_mysql`,
  `UnifiedSyncService.fetch_wordpress_leads`,
  `UnifiedSyncService.run_sync_cycle` (fetch-window computation);
* `sync_to_ghl.py` — `GHLSyncManager.get_leads_to_sync`,
  `GHLSyncManager.log_sync_attempt`, `GHLSyncManager.retry_failed_leads`
  (the in-place UPDATE sweep over `ghl_sync_log`);
* `src/wordpress_leads_extractor/api/ghl_client.py` — `GHLClient.create_contact`,
  `GHLClient.update_contact`, `GHLClient.get_contact_by_email`,
  `GHLClient.create_or_update_contact`.

External libraries (the `email_validator` and `phonenumbers` packages, the
HTTP transport, the MySQL server) are modelled abstractly: validators are
structures holding an arbitrary validation function, HTTP exchanges are an
explicit transport value holding the responses a run observes, and the
MySQL tables are Lean lists of rows.  Timestamps are integers (minutes).

Python string primitives (`str.lower`, `str.strip`, `str.split`, the `in`
operator) are re-implemented by structural recursion on the character list
so that every definition evaluates inside the kernel.
-/

namespace LeadsExtractor

/-- Minutes-since-epoch timestamp; MySQL DATETIME values are modelled as integers. -/
abbrev DateTime := Int

/-- Day number of a timestamp; models SQL `DATE(ts)` and Python `.date()`. -/
def dateOf (t : DateTime) : Int := t / 1440

/-! ### Python string primitives -/

/-- Python `str.lower()` on a string, character by character. -/
def pyLower (s : String) : String := ⟨s.data.map Char.toLower⟩

/-- Python `str.strip()`: drop whitespace from both ends. -/
def pyStrip (s : String) : String :=
  ⟨((s.data.dropWhile Char.isWhitespace).reverse.dropWhile Char.isWhitespace).reverse⟩

/-- Split a character list at every occurrence of `c` (Python `str.split(sep)`). -/
def splitOnCharAux (c : Char) (l : List Char) : List (List Char) :=
  l.foldr (fun ch acc =>
    if ch = c then [] :: acc
    else match acc with
      | h :: t => (ch :: h) :: t
      | [] => [[ch]]) [[]]

/-- Python `s.split(c)` for a one-character separator; never returns `[]`. -/
def pySplit (c : Char) (s : String) : List String :=
  (splitOnCharAux c s.data).map (fun l => ⟨l⟩)

/-- Whether `needle` occurs at the head of `hay`. -/
def isPre : List Char → List Char → Bool
  | [], _ => true
  | _ :: _, [] => false
  | a :: as, b :: bs => a == b && isPre as bs

/-- Whether `needle` occurs anywhere inside `hay`. -/
def containsSub (needle : List Char) : List Char → Bool
  | [] => isPre needle []
  | h :: t => isPre needle (h :: t) || containsSub needle t

/-- Python `needle in hay` on strings. -/
def pyInStr (needle hay : String) : Bool := containsSub needle.data hay.data

/-- Python `c in s` membership of a character in a string. -/
def pyInChr (c : Char) (s : String) : Bool := s.data.any (fun x => x == c)

/-- Python truthiness of an optional string: `None` and `""` are falsy. -/
def isTruthyOpt : Option String → Bool
  | none => false
  | some s => !(s == "")

/-! ### External validators (the `email_validator` and `phonenumbers` packages) -/

/-- Abstract interface of `email_validator.validate_email`: `validate s` is
`some n` when `s` is a valid email whose normalized form is `n`, and `none`
when validation raises `EmailNotValidError`. -/
structure EmailValidator where
  validate : String → Option String

/-- Result of `phonenumbers.parse` followed by validity/formatting queries. -/
structure PhoneParsed where
  valid : Bool
  e164 : String
  region : String

/-- Abstract interface of the `phonenumbers` package: `parse p` is `none`
when parsing raises `NumberParseException`. -/
structure PhoneValidator where
  parse : String → Option PhoneParsed

/-! ### LeadCleaner (`sync_to_mysql.py` lines 38-112) -/

/-- Model of `LeadCleaner.clean_email`: empty input short-circuits; otherwise
the input is stripped and lowercased and handed to the validator; on success
the validator's normalized email is returned with flag `true`, on failure the
stripped lowercased input with flag `false`. -/
def clean_email (V : EmailValidator) (email : String) : String × Bool :=
  if email = "" then ("", false)
  else
    let e := pyLower (pyStrip email)
    match V.validate e with
    | some n => (n, true)
    | none => (e, false)

/-- Keep only ASCII digits (Python `re.sub(r'[^\d]', '', phone)`). -/
def digitsOnly (s : String) : String := ⟨s.data.filter Char.isDigit⟩

/-- Model of `LeadCleaner.clean_phone`: returns `(cleaned, country, is_valid)`.
A parse failure or an invalid number degrades to the digits of the input. -/
def clean_phone (V : PhoneValidator) (phone : String) : String × String × Bool :=
  if phone = "" then ("", "", false)
  else
    let p := pyStrip phone
    match V.parse p with
    | some r => if r.valid then (r.e164, r.region, true) else (digitsOnly p, "", false)
    | none => (digitsOnly p, "", false)

/-- The dictionary keys `LeadCleaner.calculate_quality_score` reads from its
argument, with `Option` for keys that may be absent (`dict.get` returning
`None`). -/
structure ScoreFields where
  email : String
  email_valid : Bool
  phone_cleaned : Option String
  phone_valid : Bool
  source : String
  deriving DecidableEq

/-- The generic consumer email providers hard-coded in the scorer. -/
def genericProviders : List String := ["gmail.com", "yahoo.com", "hotmail.com", "outlook.com"]

/-- Python `lead.get('phone_cleaned') and len(lead.get('phone_cleaned', '')) >= 10`. -/
def scoreHasPhone (l : ScoreFields) : Bool :=
  match l.phone_cleaned with
  | some p => !(p == "") && decide (10 ≤ p.length)
  | none => false

/-- Python `lead.get('email', '').split('@')[-1].lower()`. -/
def emailDomainOf (email : String) : String := pyLower ((pySplit '@' email).getLastD "")

/-- Python `email_domain not in ['gmail.com', ...]` (negated: membership). -/
def genericCond (email : String) : Bool := decide (emailDomainOf email ∈ genericProviders)

/-- Python `lead.get('source', '').lower() in ['test', 'unknown', '']`. -/
def badSourceCond (source : String) : Bool :=
  decide (pyLower source ∈ (["test", "unknown", ""] : List String))

/-- Model of `LeadCleaner.calculate_quality_score`, accumulating the score
exactly as the Python code mutates its local `score` variable, then clamping. -/
def calculate_quality_score (lead : ScoreFields) : Int :=
  let score : Int := 50
  let score := if lead.email_valid then score + 20 else score
  let score := if scoreHasPhone lead then score + 15 else score
  let score := if lead.phone_valid then score + 10 else score
  let score := if !(genericCond lead.email) then score + 10 else score
  let score := if badSourceCond lead.source then score - 5 else score
  min (max score 0) 100

/-- Quality score as the specification words it: the clamp to `[0, 100]` of a
base of 50 plus the individual bonuses and the source penalty, written as a
single sum.  Used only to compare against `calculate_quality_score`. -/
def specQualityScore (lead : ScoreFields) : Int :=
  min (max (50 + (if lead.email_valid then (20 : Int) else 0)
      + (if scoreHasPhone lead then 15 else 0)
      + (if lead.phone_valid then 10 else 0)
      + (if genericCond lead.email then 0 else 10)
      + (if badSourceCond lead.source then -5 else 0)) 0) 100

/-! ### Raw WordPress records and the processing context -/

/-- A raw lead as delivered by the WordPress endpoint (the `raw_data` dict);
`wpId` is `raw_data['id']` already stringified, as `str(raw_data.get('id', ''))`
does at the use site. -/
structure RawLead where
  email : String
  phone : String
  first_name : String
  last_name : String
  signup_date : String
  wpId : String
  deriving DecidableEq

/-- Ambient context of one processing step: the two external validator
libraries, the wall clock (`datetime.now()`), and `datetime.strptime` for the
signup-date format (returning `none` when parsing raises). -/
structure Ctx where
  ev : EmailValidator
  pv : PhoneValidator
  now : DateTime
  parseDT : String → Option DateTime

/-- The processed lead dictionary built by `process_lead` (identical in
`MySQLSync.process_lead` and `UnifiedSyncService.process_lead`).  Note that
the dict has a `phone` key (the raw phone) but no `phone_cleaned` key: the
cleaned number from `clean_phone` is dropped. -/
structure ProcessedLead where
  email : String
  email_valid : Bool
  email_domain : Option String
  phone : String
  phone_country : String
  phone_valid : Bool
  phone_type : Option String
  first_name : String
  last_name : String
  signup_date : Int
  signup_datetime : DateTime
  source : String
  source_id : String
  quality_score : Int
  deriving DecidableEq

/-- The `ScoreFields` view of a processed dict, as read by
`calculate_quality_score` when `process_lead` calls it: the dict has no
`phone_cleaned` key, so that field reads as `none`. -/
def processedScoreView (p : ProcessedLead) : ScoreFields :=
  { email := p.email
    email_valid := p.email_valid
    phone_cleaned := none
    phone_valid := p.phone_valid
    source := p.source }

/-- Model of `process_lead` (`sync_to_mysql.py` lines 226-280 and
`unified_sync.py` lines 144-194): clean the email and phone, derive the
domain, copy names, parse the signup date (falling back to the current time),
fix `source := "wordpress"`, and score the resulting dict. -/
def process_lead (ctx : Ctx) (raw : RawLead) : ProcessedLead :=
  let ce := clean_email ctx.ev raw.email
  let email := ce.1
  let email_domain :=
    if !(email == "") && pyInChr '@' email then some ((pySplit '@' email).getD 1 "") else none
  let cp := clean_phone ctx.pv raw.phone
  let signup_dt :=
    if raw.signup_date == "" then ctx.now else (ctx.parseDT raw.signup_date).getD ctx.now
  let base : ProcessedLead :=
    { email := email
      email_valid := ce.2
      email_domain := email_domain
      phone := raw.phone
      phone_country := cp.2.1
      phone_valid := cp.2.2
      phone_type := if cp.2.2 then some "mobile" else none
      first_name := raw.first_name
      last_name := raw.last_name
      signup_date := dateOf signup_dt
      signup_datetime := signup_dt
      source := "wordpress"
      source_id := raw.wpId
      quality_score := 0 }
  { base with quality_score := calculate_quality_score (processedScoreView base) }

/-! ### The MySQL `leads` table and the upsert -/

/-- One row of the `leads` table; `id` is the auto-increment key.  Columns not
set by the INSERT start at their schema defaults (`ghl_synced = FALSE`, no GHL
contact, zero sync attempts). -/
structure LeadRow where
  id : Nat
  email : String
  phone : String
  first_name : String
  last_name : String
  signup_date : Int
  signup_datetime : DateTime
  source : String
  source_id : String
  phone_country : String
  phone_type : Option String
  phone_valid : Bool
  email_valid : Bool
  email_domain : Option String
  quality_score : Int
  ghl_synced : Bool
  ghl_synced_at : Option DateTime
  ghl_contact_id : Option String
  ghl_sync_attempts : Nat
  updated_at : DateTime
  deriving DecidableEq

/-- The `leads` table together with its auto-increment counter. -/
structure LeadsDB where
  rows : List LeadRow
  nextId : Nat
  deriving DecidableEq

/-- Row inserted for a processed lead by the INSERT of `save_lead` /
`save_lead_to_mysql`. -/
def insertRow (ctx : Ctx) (p : ProcessedLead) (db : LeadsDB) : LeadRow :=
  { id := db.nextId
    email := p.email
    phone := p.phone
    first_name := p.first_name
    last_name := p.last_name
    signup_date := p.signup_date
    signup_datetime := p.signup_datetime
    source := p.source
    source_id := p.source_id
    phone_country := p.phone_country
    phone_type := p.phone_type
    phone_valid := p.phone_valid
    email_valid := p.email_valid
    email_domain := p.email_domain
    quality_score := p.quality_score
    ghl_synced := false
    ghl_synced_at := none
    ghl_contact_id := none
    ghl_sync_attempts := 0
    updated_at := ctx.now }

/-- Outcome of one upsert: the `(success, is_new, lead_id)` triple returned by
`UnifiedSyncService.save_lead_to_mysql` (of which `MySQLSync.save_lead`
returns the first two components), plus the table state after the call. -/
structure SaveResult where
  success : Bool
  isNew : Bool
  leadId : Option Nat
  db : LeadsDB

/-- Model of the upsert (`MySQLSync.save_lead`, `sync_to_mysql.py` lines
282-351, and `UnifiedSyncService.save_lead_to_mysql`, `unified_sync.py` lines
196-268): process the record, skip it if the cleaned email is empty, otherwise
select an existing row by email; if found, touch only `updated_at` on that row
and report `is_new = false`; if absent, insert a fresh row. -/
def save_lead (ctx : Ctx) (db : LeadsDB) (lead : RawLead) : SaveResult :=
  let p := process_lead ctx lead
  if p.email = "" then ⟨false, false, none, db⟩
  else
    match db.rows.find? (fun r => decide (r.email = p.email)) with
    | some r =>
        ⟨true, false, some r.id,
          { db with rows := db.rows.map (fun x =>
              if x.id = r.id then { x with updated_at := ctx.now } else x) }⟩
    | none =>
        ⟨true, true, some db.nextId,
          { rows := db.rows ++ [insertRow ctx p db], nextId := db.nextId + 1 }⟩

/-- Number of `leads` rows carrying a given email (the store identity). -/
def countEmail (db : LeadsDB) (e : String) : Nat :=
  db.rows.countP (fun r => decide (r.email = e))

/-! ### WordPress fetch (`fetch_wordpress_leads` and `WordPressSync.fetch_leads`) -/

/-- Outcome of the HTTP GET against the WordPress leads endpoint as a run
observes it: a transport-level exception (`requests.RequestException`,
covering network errors and timeouts), or a response with a status code and,
when its body parsed as JSON, the list under the `leads` key
(`data.get('leads', [])`). -/
inductive WpResponse
  | netError (msg : String)
  | http (status : Nat) (body : Option (List RawLead))
  deriving DecidableEq

/-- A transport-level failure: a raised request exception or an HTTP error
status (`response.raise_for_status()` raises for 4xx/5xx codes). -/
def isTransportFailure : WpResponse → Bool
  | .netError _ => true
  | .http s _ => decide (400 ≤ s)

/-- Model of `UnifiedSyncService.fetch_wordpress_leads` (`unified_sync.py`
lines 100-142): every exception inside the body — request failure,
`raise_for_status`, JSON decoding — is caught, logged and turned into `[]`.
Returns the fetched list together with whether an error was logged. -/
def fetch_wordpress_leads (resp : WpResponse) : List RawLead × Bool :=
  match resp with
  | .netError _ => ([], true)
  | .http s body =>
      if 400 ≤ s then ([], true)
      else
        match body with
        | some leads => (leads, false)
        | none => ([], true)

/-- Model of `WordPressSync.fetch_leads` (`sync_to_mysql.py` lines 127-153):
request exceptions and HTTP error statuses are logged and then re-raised
(`Except.error`); a body that fails to parse raises outside the handler.
Returns whether an error was logged together with the outcome. -/
def wp_sync_fetch_leads (resp : WpResponse) : Bool × Except String (List RawLead) :=
  match resp with
  | .netError m => (true, .error m)
  | .http s body =>
      if 400 ≤ s then (true, .error ("HTTP error " ++ toString s))
      else
        match body with
        | some leads => (false, .ok leads)
        | none => (false, .error "invalid JSON body")

/-- Fetch-window lower bound computed by `UnifiedSyncService.run_sync_cycle`
(`unified_sync.py` line 373): `start_time - timedelta(minutes = sync_interval + 1)`. -/
def since_datetime (startTime : Int) (syncIntervalMinutes : Int) : Int :=
  startTime - (syncIntervalMinutes + 1)

/-! ### The `ghl_sync_log` delivery ledger (`sync_to_ghl.py`) -/

/-- One row of `ghl_sync_log`; `id` is the auto-increment key. -/
structure GhlLogRow where
  id : Nat
  lead_id : Nat
  email : String
  request_timestamp : DateTime
  request_body : String
  response_status_code : Option Nat
  response_body : String
  response_timestamp : DateTime
  status : String
  error_message : Option String
  retry_count : Nat
  next_retry_at : Option DateTime
  ghl_contact_id : Option String
  ghl_location_id : String
  deriving DecidableEq

/-- Sync configuration of `GHLSyncManager` (environment-driven). -/
structure GhlCfg where
  batch_size : Nat
  max_retries : Nat
  retry_delay_minutes : Nat
  location_id : String
  deriving DecidableEq

/-- The ledger row the `ROW_NUMBER() OVER (PARTITION BY lead_id ORDER BY id
DESC)` subquery of `get_leads_to_sync` ranks first for a lead: the lead's row
of maximal `id`. -/
def latestLog (logs : List GhlLogRow) (lid : Nat) : Option GhlLogRow :=
  (logs.filter (fun g => g.lead_id == lid)).foldl
    (fun acc g =>
      match acc with
      | none => some g
      | some a => if a.id < g.id then some g else some a) none

/-- Whether any ledger row exists for a lead (`l.id NOT IN (SELECT DISTINCT
lead_id FROM ghl_sync_log)`, negated). -/
def hasLog (logs : List GhlLogRow) (lid : Nat) : Bool :=
  logs.any (fun g => g.lead_id == lid)

/-- The WHERE clause of `get_leads_to_sync` (`sync_to_ghl.py` lines 108-114):
either never attempted and not yet synced, or the latest attempt is
`failed`/`retry` with fewer than `max_retries` retries and an elapsed (or
absent) `next_retry_at`. -/
def eligibleToSync (cfg : GhlCfg) (now : DateTime) (logs : List GhlLogRow)
    (l : LeadRow) : Bool :=
  (!l.ghl_synced && !hasLog logs l.id) ||
  (match latestLog logs l.id with
   | some g =>
       (g.status == "failed" || g.status == "retry") &&
       decide (g.retry_count < cfg.max_retries) &&
       (match g.next_retry_at with
        | none => true
        | some t => decide (t ≤ now))
   | none => false)

/-- The ORDER BY key of `get_leads_to_sync` (retry first, then quality score
descending, then signup date ascending), as a three-way lexicographic Bool
comparison. -/
def syncOrder (logs : List GhlLogRow) (a b : LeadRow) : Bool :=
  let ka : Int := if (latestLog logs a.id).map GhlLogRow.status == some "retry" then 0 else 1
  let kb : Int := if (latestLog logs b.id).map GhlLogRow.status == some "retry" then 0 else 1
  decide (ka < kb) ||
  (ka == kb && (decide (b.quality_score < a.quality_score) ||
    (a.quality_score == b.quality_score && decide (a.signup_date ≤ b.signup_date))))

/-- Model of `GHLSyncManager.get_leads_to_sync` (`sync_to_ghl.py` lines
71-130): filter by the WHERE clause, sort by the ORDER BY key, truncate at
`LIMIT` (the explicit limit, else the batch size). -/
def get_leads_to_sync (cfg : GhlCfg) (now : DateTime) (leads : List LeadRow)
    (logs : List GhlLogRow) (limit : Option Nat) : List LeadRow :=
  let lim := match limit with
    | some n => if n = 0 then cfg.batch_size else n
    | none => cfg.batch_size
  (((leads.filter (eligibleToSync cfg now logs)).mergeSort (syncOrder logs)).take lim)

/-- Condition of the UPDATE inside `retry_failed_leads` (`sync_to_ghl.py`
lines 347-356): attempts of the given day, currently `failed`, with fewer than
`max_retries` retries. -/
def sweepCond (cfg : GhlCfg) (d : Int) (g : GhlLogRow) : Bool :=
  dateOf g.request_timestamp == d && g.status == "failed" &&
    decide (g.retry_count < cfg.max_retries)

/-- Model of the UPDATE sweep of `GHLSyncManager.retry_failed_leads`: every
matching ledger row has its `status` set to `'retry'` and its `next_retry_at`
set to `NOW()`, in place. -/
def retry_failed_leads_sweep (cfg : GhlCfg) (now : DateTime) (d : Int)
    (logs : List GhlLogRow) : List GhlLogRow :=
  logs.map (fun g =>
    if sweepCond cfg d g then { g with status := "retry", next_retry_at := some now } else g)

/-- The result dictionary a GHL API call hands to `log_sync_attempt`. -/
structure GhlResult where
  request_timestamp : DateTime
  request_body : String
  response_status_code : Option Nat
  response_body : String
  response_timestamp : DateTime
  success : Bool
  error_message : Option String
  ghl_contact_id : Option String
  deriving DecidableEq

/-- State touched by `log_sync_attempt`: the `leads` table, the ledger and its
auto-increment counter. -/
structure GhlState where
  leads : List LeadRow
  logs : List GhlLogRow
  nextLogId : Nat
  deriving DecidableEq

/-- Python `SELECT MAX(retry_count) FROM ghl_sync_log WHERE lead_id = %s`
followed by `fetchone()[0] or 0`. -/
def maxRetryCount (logs : List GhlLogRow) (lid : Nat) : Nat :=
  (logs.filter (fun g => g.lead_id == lid)).foldl (fun m g => max m g.retry_count) 0

/-- Model of `GHLSyncManager.log_sync_attempt` (`sync_to_ghl.py` lines
132-227): compute the status and next retry time, read the current retry
count, append one ledger row, and update the lead (mark synced on success
with a contact id, otherwise only bump the attempt counter). -/
def log_sync_attempt (cfg : GhlCfg) (now : DateTime) (st : GhlState) (lid : Nat)
    (email : String) (res : GhlResult) : GhlState :=
  let status := if res.success then "success" else "failed"
  let next_retry : Option DateTime :=
    if res.success then none else some (now + (cfg.retry_delay_minutes : Int))
  let current := maxRetryCount st.logs lid
  let newRow : GhlLogRow :=
    { id := st.nextLogId
      lead_id := lid
      email := email
      request_timestamp := res.request_timestamp
      request_body := res.request_body
      response_status_code := res.response_status_code
      response_body := res.response_body
      response_timestamp := res.response_timestamp
      status := status
      error_message := res.error_message
      retry_count := current + (if status = "failed" then 1 else 0)
      next_retry_at := next_retry
      ghl_contact_id := res.ghl_contact_id
      ghl_location_id := cfg.location_id }
  let leads' :=
    if res.success && isTruthyOpt res.ghl_contact_id then
      st.leads.map (fun l =>
        if l.id = lid then
          { l with ghl_synced := true, ghl_synced_at := some now,
                   ghl_contact_id := res.ghl_contact_id,
                   ghl_sync_attempts := l.ghl_sync_attempts + 1 }
        else l)
    else
      st.leads.map (fun l =>
        if l.id = lid then { l with ghl_sync_attempts := l.ghl_sync_attempts + 1 } else l)
  { leads := leads', logs := st.logs ++ [newRow], nextLogId := st.nextLogId + 1 }

/-! ### The GHL client (`ghl_client.py`) -/

/-- The parts of a parsed GHL response body the client inspects: whether the
text `"duplicate"` occurs in `str(body).lower()`, `body.get("contact", {})
.get("id")`, and `body.get("id")`. -/
structure GhlBody where
  hasDuplicateText : Bool
  contactId : Option String
  topId : Option String
  deriving DecidableEq

/-- A contact record returned by the GHL search endpoint. -/
structure GhlContact where
  id : Option String
  email : String
  deriving DecidableEq

/-- The HTTP exchanges one `create_or_update_contact` run observes: the
response to the create POST, to the lookup GET (status code and contact
list), and to the update PUT.  `none` models a raised request exception. -/
structure GhlTransport where
  createResp : Option (Nat × GhlBody)
  lookupResp : Option (Nat × List GhlContact)
  updateResp : Option (Nat × GhlBody)
  deriving DecidableEq

/-- The fields of the client's result dictionary that later logic reads. -/
structure GhlCallResult where
  success : Bool
  error_message : Option String
  ghl_contact_id : Option String
  response_status_code : Option Nat
  deriving DecidableEq

/-- Python `a or b` on the two candidate contact ids (empty string is falsy). -/
def pyOrOpt (a b : Option String) : Option String :=
  match a with
  | some s => if s = "" then b else some s
  | none => b

/-- Model of `GHLClient.create_contact` (`ghl_client.py` lines 59-187): 2xx
succeeds with the id found in the body; a 422 whose body mentions a duplicate
succeeds only when the body carries the existing contact id; every other
status, and a request exception, fails with the corresponding message. -/
def create_contact (t : GhlTransport) : GhlCallResult :=
  match t.createResp with
  | none =>
      { success := false, error_message := some "request exception",
        ghl_contact_id := none, response_status_code := none }
  | some (code, body) =>
      if code == 200 || code == 201 then
        { success := true, error_message := none,
          ghl_contact_id := pyOrOpt body.contactId body.topId,
          response_status_code := some code }
      else if code == 422 then
        if body.hasDuplicateText then
          if isTruthyOpt body.contactId then
            { success := true, error_message := some "Duplicate contact",
              ghl_contact_id := body.contactId, response_status_code := some 422 }
          else
            { success := false, error_message := some "Duplicate contact",
              ghl_contact_id := none, response_status_code := some 422 }
        else
          { success := false, error_message := some "Validation error or duplicate contact",
            ghl_contact_id := none, response_status_code := some 422 }
      else if code == 401 then
        { success := false, error_message := some "Authentication failed - check access token",
          ghl_contact_id := none, response_status_code := some code }
      else if code == 400 then
        { success := false, error_message := some "Bad request - check payload format",
          ghl_contact_id := none, response_status_code := some code }
      else
        { success := false, error_message := some ("API error: " ++ toString code),
          ghl_contact_id := none, response_status_code := some code }

/-- Model of `GHLClient.get_contact_by_email` (`ghl_client.py` lines 269-301):
on a 200 the first returned contact whose email matches case-insensitively;
anything else yields `none`. -/
def get_contact_by_email (t : GhlTransport) (email : String) : Option GhlContact :=
  match t.lookupResp with
  | none => none
  | some (code, contacts) =>
      if code == 200 then
        contacts.find? (fun c => pyLower c.email == pyLower email)
      else none

/-- Model of `GHLClient.update_contact` (`ghl_client.py` lines 189-267): a 200
succeeds; the result dictionary carries no contact id of its own. -/
def update_contact (t : GhlTransport) : GhlCallResult :=
  match t.updateResp with
  | none =>
      { success := false, error_message := some "request exception",
        ghl_contact_id := none, response_status_code := none }
  | some (code, _body) =>
      if code == 200 then
        { success := true, error_message := none, ghl_contact_id := none,
          response_status_code := some code }
      else
        { success := false, error_message := some ("Update failed: " ++ toString code),
          ghl_contact_id := none, response_status_code := some code }

/-- Python `"duplicate" in str(result.get("error_message", "")).lower()`. -/
def errorMentionsDuplicate (o : Option String) : Bool :=
  match o with
  | none => false
  | some s => pyInStr "duplicate" (pyLower s)

/-- Model of `GHLClient.create_or_update_contact` (`ghl_client.py` lines
324-382): try the create; when it failed with a duplicate message, look the
contact up by email and, when a contact with a truthy id is found, run the
update and return its result with `ghl_contact_id` set to the discovered id. -/
def create_or_update_contact (t : GhlTransport) (email : String) : GhlCallResult :=
  let result := create_contact t
  if !result.success && errorMentionsDuplicate result.error_message then
    match get_contact_by_email t email with
    | some existing =>
        match existing.id with
        | some cid =>
            if cid ≠ "" then
              let u := update_contact t
              { u with ghl_contact_id := some cid }
            else result
        | none => result
    | none => result
  else result

/-! ### Concrete fixtures used by witnesses and counterexamples -/

/-- A record presenting every bonus to the scorer: valid email on a non-generic
domain, long valid phone, real source. -/
def fullLead : ScoreFields :=
  { email := "lead@rollingriches.com", email_valid := true,
    phone_cleaned := some "+14155551212", phone_valid := true, source := "wordpress" }

/-- Concrete email validator accepting exactly one address, used to instantiate
the abstract `email_validator` interface in witnesses. -/
def evEx : EmailValidator :=
  ⟨fun s => if s = "ab@cd.com" then some "ab@cd.com" else none⟩

/-- A GHL 422 body carrying a duplicate indicator but no embedded contact id. -/
def dupBody : GhlBody := { hasDuplicateText := true, contactId := none, topId := none }

/-- A GHL body with nothing in it. -/
def emptyBody : GhlBody := { hasDuplicateText := false, contactId := none, topId := none }

/-- The existing contact the lookup discovers. -/
def contactC1 : GhlContact := { id := some "C-1", email := "lead@example.com" }

/-- Transport: create answers 422 duplicate, lookup finds `C-1`, update fails with 500. -/
def tFailUpd : GhlTransport :=
  { createResp := some (422, dupBody), lookupResp := some (200, [contactC1]),
    updateResp := some (500, emptyBody) }

/-- Transport: create answers 422 duplicate, lookup finds `C-1`, update succeeds. -/
def tOkUpd : GhlTransport :=
  { createResp := some (422, dupBody), lookupResp := some (200, [contactC1]),
    updateResp := some (200, emptyBody) }

/-! ### C2 — quality-score formula -/

/-- C2: for every input record the quality score equals the clamp to `[0,100]`
of 50 plus 20 for a valid email, 15 for a phone entry of length at least 10,
10 for a fully validated phone, 10 for a non-generic email domain, minus 5 for
an empty/test/unknown source; and any record with all four bonuses and no
penalty scores exactly 100. -/
theorem quality_score_formula :
    (∀ l : ScoreFields, calculate_quality_score l = specQualityScore l) ∧
    (∀ l : ScoreFields, l.email_valid = true → scoreHasPhone l = true →
      l.phone_valid = true → genericCond l.email = false → badSourceCond l.source = false →
      calculate_quality_score l = 100) := by
  constructor
  · intro l
    unfold calculate_quality_score specQualityScore
    cases h1 : l.email_valid <;> cases h2 : scoreHasPhone l <;> cases h3 : l.phone_valid <;>
      cases h4 : genericCond l.email <;> cases h5 : badSourceCond l.source <;>
        simp [h1, h2, h3, h4, h5]
  · intro l h1 h2 h3 h4 h5
    unfold calculate_quality_score
    rw [h1, h2, h3, h4, h5]
    decide

/-- Witness for C2 at a concrete full-score record. -/
theorem quality_score_formula_witness :
    calculate_quality_score fullLead = 100 :=
  quality_score_formula.2 fullLead (by decide) (by decide) (by decide) (by decide) (by decide)

/-! ### C8 — fetch-window buffer -/

/-- C8 counterexample: with the default 10-minute polling interval the window
lower bound is 11 minutes before the cycle start, not the 20 minutes that a
buffer of one full polling interval (added to the point `start - interval`
covered by the previous cycle) would give. -/
theorem window_buffer_counterexample :
    since_datetime 0 10 = -11 ∧ since_datetime 0 10 ≠ 0 - (10 + 10) := by decide

/-- C8 amended: the buffer added to the fetch-window lower bound is one
minute, not one polling interval: the bound is one minute earlier than
`start - interval`, so a cycle starting exactly one interval after the
previous one reaches one minute before that previous start. -/
theorem window_buffer_one_minute (start interval : Int) :
    since_datetime start interval = start - interval - 1 ∧
    since_datetime (start + interval) interval + 1 = start := by
  unfold since_datetime
  constructor <;> ring

/-! ### C4 — transport failures during fetch -/

/-- C4 counterexample: on a transport failure the standalone MySQL sync
fetcher (`WordPressSync.fetch_leads`) logs and re-raises the exception rather
than returning an empty list. -/
theorem fetch_failure_counterexample :
    isTransportFailure (WpResponse.netError "timeout") = true ∧
    wp_sync_fetch_leads (WpResponse.netError "timeout") = (true, Except.error "timeout") ∧
    wp_sync_fetch_leads (WpResponse.netError "timeout") ≠ (true, Except.ok []) := by
  refine ⟨rfl, rfl, ?_⟩
  intro h
  simp [wp_sync_fetch_leads] at h

/-- C4 amended: on every transport failure the unified service's fetcher
returns an empty list after logging the failure, while the standalone MySQL
sync fetcher logs the failure and re-raises it to its caller. -/
theorem fetch_failure_returns_empty (resp : WpResponse)
    (h : isTransportFailure resp = true) :
    fetch_wordpress_leads resp = ([], true) ∧
    ∃ m, wp_sync_fetch_leads resp = (true, Except.error m) := by
  cases resp with
  | netError m => exact ⟨rfl, m, rfl⟩
  | http s body =>
    simp only [isTransportFailure, decide_eq_true_eq] at h
    refine ⟨?_, "HTTP error " ++ toString s, ?_⟩ <;>
      simp [fetch_wordpress_leads, wp_sync_fetch_leads, if_pos h]

/-- Witness for the amended C4 at a concrete timeout. -/
theorem fetch_failure_returns_empty_witness :
    fetch_wordpress_leads (WpResponse.netError "timeout") = ([], true) ∧
    ∃ m, wp_sync_fetch_leads (WpResponse.netError "timeout") = (true, Except.error m) :=
  fetch_failure_returns_empty (WpResponse.netError "timeout") (by decide)

/-! ### C9 — idempotence of clean_email -/

/-- Well-behavedness of the external `email_validator` library: a normalized
email it returns is nonempty, is fixed by strip-then-lowercase, and
re-validates to itself. -/
def StableValidator (V : EmailValidator) : Prop :=
  ∀ s n, V.validate s = some n →
    n ≠ "" ∧ pyLower (pyStrip n) = n ∧ V.validate n = some n

/-- C9: for every valid email string, cleaning the normalized string returned
by a first `clean_email` yields the same normalized string and the same
validity flag. -/
theorem clean_email_idempotent (V : EmailValidator) (hV : StableValidator V)
    (e : String) (hvalid : (clean_email V e).2 = true) :
    clean_email V (clean_email V e).1 = clean_email V e := by
  by_cases he : e = ""
  · rw [he] at hvalid
    simp [clean_email] at hvalid
  · cases hv : V.validate (pyLower (pyStrip e)) with
    | none =>
      have : (clean_email V e).2 = false := by simp [clean_email, if_neg he, hv]
      rw [this] at hvalid
      exact Bool.noConfusion hvalid
    | some n =>
      obtain ⟨hne, hnorm, hfix⟩ := hV _ n hv
      have h1 : clean_email V e = (n, true) := by simp [clean_email, if_neg he, hv]
      rw [h1]
      simp [clean_email, if_neg hne, hnorm, hfix]

/-- Stability of the concrete witness validator. -/
lemma evEx_stable : StableValidator evEx := by
  intro s n h
  by_cases hs : s = "ab@cd.com"
  · rw [evEx] at h
    simp only [hs, if_pos] at h
    obtain rfl : "ab@cd.com" = n := by simpa using h
    exact ⟨by decide, by decide, by simp [evEx]⟩
  · rw [evEx] at h
    simp [hs] at h

/-- Witness for C9 at a concrete valid email needing both strip and lowercase. -/
theorem clean_email_idempotent_witness :
    (clean_email evEx " Ab@cd.com ").2 = true ∧
    clean_email evEx (clean_email evEx " Ab@cd.com ").1 = clean_email evEx " Ab@cd.com " :=
  ⟨by decide, clean_email_idempotent evEx evEx_stable " Ab@cd.com " (by decide)⟩

/-! ### C10 — pipeline scores never see the phone bonus or source penalty -/

/-- Score outcomes of a record whose scorer view has no `phone_cleaned` key
and source `"wordpress"`. -/
lemma score_range_of_view (v : ScoreFields) (hp : v.phone_cleaned = none)
    (hs : v.source = "wordpress") :
    calculate_quality_score v ∈ ([50, 60, 70, 80, 90] : List Int) := by
  unfold calculate_quality_score
  have h2 : scoreHasPhone v = false := by simp [scoreHasPhone, hp]
  have h5 : badSourceCond v.source = false := by rw [hs]; decide
  rw [h2, h5]
  cases h1 : v.email_valid <;> cases h3 : v.phone_valid <;> cases h4 : genericCond v.email <;>
    simp [h1, h3, h4]

/-- C10: every record processed by the pipeline is scored on a dict that never
carries a `phone_cleaned` key (so the +15 phone bonus never fires) and whose
source is unconditionally `"wordpress"` (so the -5 penalty never fires); the
stored quality score therefore lies in `{50, 60, 70, 80, 90}` and never
reaches 100. -/
theorem pipeline_score_range (ctx : Ctx) (raw : RawLead) :
    scoreHasPhone (processedScoreView (process_lead ctx raw)) = false ∧
    badSourceCond (process_lead ctx raw).source = false ∧
    (process_lead ctx raw).quality_score ∈ ([50, 60, 70, 80, 90] : List Int) ∧
    (process_lead ctx raw).quality_score < 100 := by
  have hq : (process_lead ctx raw).quality_score =
      calculate_quality_score (processedScoreView (process_lead ctx raw)) := rfl
  have hmem := score_range_of_view (processedScoreView (process_lead ctx raw)) rfl rfl
  refine ⟨rfl, by rw [show (process_lead ctx raw).source = "wordpress" from rfl]; decide,
    hq ▸ hmem, ?_⟩
  rw [hq]
  have hlt : ∀ x ∈ ([50, 60, 70, 80, 90] : List Int), x < 100 := by decide
  exact hlt _ hmem

/-! ### C3 — duplicate resolution in the GHL client -/

/-- C3 counterexample: the destination answers the create with a 422 duplicate
indication, the lookup-by-email finds contact `C-1`, yet the returned result
has `success = false` because the follow-up update call failed; the claim that
such a delivery always returns `success = true` is false. -/
theorem duplicate_resolution_counterexample :
    tFailUpd.createResp = some (422, dupBody) ∧ dupBody.hasDuplicateText = true ∧
    get_contact_by_email tFailUpd "lead@example.com" = some contactC1 ∧
    (create_or_update_contact tFailUpd "lead@example.com").ghl_contact_id = some "C-1" ∧
    (create_or_update_contact tFailUpd "lead@example.com").success = false := by decide

/-- C3 amended: when the create answers 422 with a duplicate indicator (and no
embedded contact id), the lookup-by-email finds an existing contact with a
non-empty id, and the follow-up update succeeds, the delivery result has
`success = true` and carries the existing contact's id. -/
theorem duplicate_resolution_success (t : GhlTransport) (email cid : String)
    (body : GhlBody) (c : GhlContact) (ub : GhlBody)
    (h1 : t.createResp = some (422, body))
    (h2 : body.hasDuplicateText = true)
    (h3 : isTruthyOpt body.contactId = false)
    (h4 : get_contact_by_email t email = some c)
    (h5 : c.id = some cid)
    (h6 : cid ≠ "")
    (h7 : t.updateResp = some (200, ub)) :
    (create_or_update_contact t email).success = true ∧
    (create_or_update_contact t email).ghl_contact_id = some cid := by
  have hc : create_contact t =
      { success := false, error_message := some "Duplicate contact",
        ghl_contact_id := none, response_status_code := some 422 } := by
    simp [create_contact, h1, h2, h3]
  have hu : update_contact t =
      { success := true, error_message := none, ghl_contact_id := none,
        response_status_code := some 200 } := by
    simp [update_contact, h7]
  have hd : errorMentionsDuplicate (some "Duplicate contact") = true := by decide
  simp [create_or_update_contact, hc, hd, h4, h5, h6, hu]

/-- Witness for the amended C3 on the concrete transport whose update succeeds. -/
theorem duplicate_resolution_success_witness :
    (create_or_update_contact tOkUpd "lead@example.com").success = true ∧
    (create_or_update_contact tOkUpd "lead@example.com").ghl_contact_id = some "C-1" :=
  duplicate_resolution_success tOkUpd "lead@example.com" "C-1" dupBody contactC1 emptyBody
    (by decide) (by decide) (by decide) (by decide) (by decide) (by decide) (by decide)

/-! ### C1 and C7 — upsert behaviour on the `leads` table -/

/-- When no row matches the cleaned email, the upsert takes the INSERT branch. -/
lemma save_lead_insert (ctx : Ctx) (db : LeadsDB) (lead : RawLead)
    (he : (process_lead ctx lead).email ≠ "")
    (hfind : db.rows.find? (fun r => decide (r.email = (process_lead ctx lead).email)) = none) :
    save_lead ctx db lead = ⟨true, true, some db.nextId,
      { rows := db.rows ++ [insertRow ctx (process_lead ctx lead) db],
        nextId := db.nextId + 1 }⟩ := by
  simp only [save_lead]
  rw [if_neg he, hfind]

/-- When a row matches the cleaned email, the upsert takes the UPDATE branch,
touching only that row's `updated_at`. -/
lemma save_lead_update (ctx : Ctx) (db : LeadsDB) (lead : RawLead) (r : LeadRow)
    (he : (process_lead ctx lead).email ≠ "")
    (hfind : db.rows.find? (fun r => decide (r.email = (process_lead ctx lead).email)) = some r) :
    save_lead ctx db lead = ⟨true, false, some r.id,
      { db with rows := db.rows.map (fun x =>
          if x.id = r.id then { x with updated_at := ctx.now } else x) }⟩ := by
  simp only [save_lead]
  rw [if_neg he, hfind]

/-- Touching `updated_at` on rows selected by id does not change how many rows
carry a given email. -/
lemma countP_email_map_touch (l : List LeadRow) (e : String) (rid : Nat) (now : DateTime) :
    (l.map (fun x => if x.id = rid then { x with updated_at := now } else x)).countP
      (fun r => decide (r.email = e)) = l.countP (fun r => decide (r.email = e)) := by
  induction l with
  | nil => rfl
  | cons a t ih =>
    simp only [List.map_cons, List.countP_cons, ih]
    congr 1
    by_cases hid : a.id = rid <;> simp [hid]

/-- C1: upserting the same identity (cleaned email) twice never creates two
rows: starting from a store without the identity the call inserts and returns
`is_new = true` leaving exactly one row, and starting from a store holding the
identity exactly once — as after any earlier upsert — the call returns
`is_new = false` and still leaves exactly one row. -/
theorem upsert_no_duplicate (ctx : Ctx) (db : LeadsDB) (lead : RawLead)
    (he : (process_lead ctx lead).email ≠ "") :
    (countEmail db (process_lead ctx lead).email = 0 →
      (save_lead ctx db lead).success = true ∧ (save_lead ctx db lead).isNew = true ∧
      countEmail (save_lead ctx db lead).db (process_lead ctx lead).email = 1) ∧
    (countEmail db (process_lead ctx lead).email = 1 →
      (save_lead ctx db lead).success = true ∧ (save_lead ctx db lead).isNew = false ∧
      countEmail (save_lead ctx db lead).db (process_lead ctx lead).email = 1) := by
  constructor
  · intro h0
    have hfind : db.rows.find?
        (fun r => decide (r.email = (process_lead ctx lead).email)) = none := by
      rw [List.find?_eq_none]
      intro x hx
      have hx0 := List.countP_eq_zero.mp h0 x hx
      simpa using hx0
    rw [save_lead_insert ctx db lead he hfind]
    refine ⟨rfl, rfl, ?_⟩
    unfold countEmail at h0 ⊢
    rw [List.countP_append, h0]
    simp [List.countP_cons, insertRow]
  · intro h1
    cases hfind : db.rows.find?
        (fun r => decide (r.email = (process_lead ctx lead).email)) with
    | none =>
      exfalso
      have h0 : db.rows.countP
          (fun r => decide (r.email = (process_lead ctx lead).email)) = 0 := by
        rw [List.countP_eq_zero]
        intro x hx
        have := List.find?_eq_none.mp hfind x hx
        simpa using this
      unfold countEmail at h1
      omega
    | some r =>
      rw [save_lead_update ctx db lead r he hfind]
      refine ⟨rfl, rfl, ?_⟩
      unfold countEmail at h1 ⊢
      rw [countP_email_map_touch, h1]

/-- Equality of every `LeadRow` field except the `updated_at` timestamp. -/
def agreesExceptUpdatedAt (a b : LeadRow) : Prop :=
  a.id = b.id ∧ a.email = b.email ∧ a.phone = b.phone ∧
  a.first_name = b.first_name ∧ a.last_name = b.last_name ∧
  a.signup_date = b.signup_date ∧ a.signup_datetime = b.signup_datetime ∧
  a.source = b.source ∧ a.source_id = b.source_id ∧
  a.phone_country = b.phone_country ∧ a.phone_type = b.phone_type ∧
  a.phone_valid = b.phone_valid ∧ a.email_valid = b.email_valid ∧
  a.email_domain = b.email_domain ∧ a.quality_score = b.quality_score ∧
  a.ghl_synced = b.ghl_synced ∧ a.ghl_synced_at = b.ghl_synced_at ∧
  a.ghl_contact_id = b.ghl_contact_id ∧ a.ghl_sync_attempts = b.ghl_sync_attempts

/-- Every row agrees with itself outside `updated_at`. -/
lemma agrees_refl (x : LeadRow) : agreesExceptUpdatedAt x x :=
  ⟨rfl, rfl, rfl, rfl, rfl, rfl, rfl, rfl, rfl, rfl, rfl, rfl, rfl, rfl, rfl, rfl, rfl, rfl,
    rfl⟩

/-- Touching `updated_at` changes nothing else. -/
lemma agrees_touch (x : LeadRow) (v : DateTime) :
    agreesExceptUpdatedAt x { x with updated_at := v } :=
  ⟨rfl, rfl, rfl, rfl, rfl, rfl, rfl, rfl, rfl, rfl, rfl, rfl, rfl, rfl, rfl, rfl, rfl, rfl,
    rfl⟩

/-- A list is pointwise related to its map when the function relates every
element to its image. -/
lemma forall2_map_self {α : Type} (R : α → α → Prop) (f : α → α) (h : ∀ x, R x (f x)) :
    ∀ l : List α, List.Forall₂ R l (l.map f)
  | [] => .nil
  | a :: t => .cons (h a) (forall2_map_self R f h t)

/-- C7: an upsert that hits an existing identity reports `is_new = false` and
leaves every row's every field other than `updated_at` unchanged (and keeps
the same number of rows). -/
theorem existing_lead_frame (ctx : Ctx) (db : LeadsDB) (lead : RawLead)
    (he : (process_lead ctx lead).email ≠ "")
    (hex : ∃ r ∈ db.rows, r.email = (process_lead ctx lead).email) :
    (save_lead ctx db lead).success = true ∧ (save_lead ctx db lead).isNew = false ∧
    List.Forall₂ agreesExceptUpdatedAt db.rows (save_lead ctx db lead).db.rows ∧
    (save_lead ctx db lead).db.rows.length = db.rows.length := by
  cases hfind : db.rows.find?
      (fun r => decide (r.email = (process_lead ctx lead).email)) with
  | none =>
    exfalso
    obtain ⟨r, hr, hre⟩ := hex
    have := List.find?_eq_none.mp hfind r hr
    simp [hre] at this
  | some r =>
    rw [save_lead_update ctx db lead r he hfind]
    refine ⟨rfl, rfl, ?_, by simp⟩
    refine forall2_map_self _ _ (fun x => ?_) db.rows
    by_cases hid : x.id = r.id
    · rw [if_pos hid]
      exact agrees_touch x ctx.now
    · rw [if_neg hid]
      exact agrees_refl x

/-- Phone validator that always raises a parse exception, for witnesses. -/
def pvEx : PhoneValidator := ⟨fun _ => none⟩

/-- Concrete processing context for witnesses. -/
def ctx0 : Ctx := { ev := evEx, pv := pvEx, now := 1000, parseDT := fun _ => none }

/-- Concrete raw lead for witnesses. -/
def lead0 : RawLead :=
  { email := "ab@cd.com", phone := "555", first_name := "A", last_name := "B",
    signup_date := "", wpId := "7" }

/-- Empty store for witnesses. -/
def db0 : LeadsDB := { rows := [], nextId := 1 }

/-- Witness for C1: saving the same lead twice into an empty store inserts
once and then reports a duplicate. -/
theorem upsert_no_duplicate_witness :
    (save_lead ctx0 db0 lead0).isNew = true ∧
    (save_lead ctx0 (save_lead ctx0 db0 lead0).db lead0).isNew = false ∧
    countEmail (save_lead ctx0 (save_lead ctx0 db0 lead0).db lead0).db
      (process_lead ctx0 lead0).email = 1 := by
  have h1 := upsert_no_duplicate ctx0 db0 lead0 (by decide)
  have h2 := upsert_no_duplicate ctx0 (save_lead ctx0 db0 lead0).db lead0 (by decide)
  exact ⟨(h1.1 (by decide)).2.1, (h2.2 (by decide)).2.1, (h2.2 (by decide)).2.2⟩

/-- Witness for C7 on a store already holding the identity. -/
theorem existing_lead_frame_witness :
    (save_lead ctx0 (save_lead ctx0 db0 lead0).db lead0).isNew = false ∧
    List.Forall₂ agreesExceptUpdatedAt (save_lead ctx0 db0 lead0).db.rows
      (save_lead ctx0 (save_lead ctx0 db0 lead0).db lead0).db.rows := by
  have h := existing_lead_frame ctx0 (save_lead ctx0 db0 lead0).db lead0 (by decide) (by decide)
  exact ⟨h.2.1, h.2.2.1⟩

/-! ### C5 — the delivery ledger is not fully append-only -/

/-- A concrete failed delivery attempt dated day 0. -/
def gEx : GhlLogRow :=
  { id := 1, lead_id := 1, email := "ab@cd.com", request_timestamp := 0,
    request_body := "", response_status_code := some 500, response_body := "",
    response_timestamp := 0, status := "failed", error_message := some "API error: 500",
    retry_count := 0, next_retry_at := some 30, ghl_contact_id := none,
    ghl_location_id := "loc" }

/-- Sync configuration with the default limits. -/
def cfgEx : GhlCfg :=
  { batch_size := 10, max_retries := 3, retry_delay_minutes := 30, location_id := "loc" }

/-- C5 counterexample: the retry sweep of `retry_failed_leads` rewrites an
existing ledger row in place — the row keeps its id but its status changes
from `failed` to `retry` — so attempt rows are not immutable after insertion. -/
theorem ledger_append_only_counterexample :
    gEx.status = "failed" ∧
    retry_failed_leads_sweep cfgEx 100 0 [gEx] ≠ [gEx] ∧
    (retry_failed_leads_sweep cfgEx 100 0 [gEx]).map GhlLogRow.id = [gEx].map GhlLogRow.id ∧
    (retry_failed_leads_sweep cfgEx 100 0 [gEx]).map GhlLogRow.status = ["retry"] := by decide

/-- Equality of every `GhlLogRow` field except `status` and `next_retry_at`,
with those two also preserved when the retry sweep's condition rejects the
row. -/
def agreesExceptSweep (cfg : GhlCfg) (d : Int) (a b : GhlLogRow) : Prop :=
  a.id = b.id ∧ a.lead_id = b.lead_id ∧ a.email = b.email ∧
  a.request_timestamp = b.request_timestamp ∧ a.request_body = b.request_body ∧
  a.response_status_code = b.response_status_code ∧ a.response_body = b.response_body ∧
  a.response_timestamp = b.response_timestamp ∧ a.error_message = b.error_message ∧
  a.retry_count = b.retry_count ∧ a.ghl_contact_id = b.ghl_contact_id ∧
  a.ghl_location_id = b.ghl_location_id ∧
  (sweepCond cfg d a = false → b.status = a.status ∧ b.next_retry_at = a.next_retry_at)

/-- C5 amended: delivery logging itself is append-only — `log_sync_attempt`
keeps every existing ledger row unchanged and appends exactly one row — and
the only in-place mutation in the pipeline is the retry sweep, which touches
nothing but `status` and `next_retry_at`, and only on failed attempts of the
requested day with fewer than `max_retries` retries. -/
theorem ledger_append_only_amended (cfg : GhlCfg) (now : DateTime) (st : GhlState)
    (lid : Nat) (email : String) (res : GhlResult) (d : Int) (logs : List GhlLogRow) :
    (log_sync_attempt cfg now st lid email res).logs.take st.logs.length = st.logs ∧
    (log_sync_attempt cfg now st lid email res).logs.length = st.logs.length + 1 ∧
    List.Forall₂ (agreesExceptSweep cfg d) logs
      (retry_failed_leads_sweep cfg now d logs) := by
  refine ⟨List.take_left st.logs _, by simp [log_sync_attempt], ?_⟩
  refine forall2_map_self _ _ (fun g => ?_) logs
  by_cases hc : sweepCond cfg d g = true
  · rw [if_pos hc]
    exact ⟨rfl, rfl, rfl, rfl, rfl, rfl, rfl, rfl, rfl, rfl, rfl, rfl,
      fun hfalse => absurd hc (by simp [hfalse])⟩
  · rw [if_neg hc]
    exact ⟨rfl, rfl, rfl, rfl, rfl, rfl, rfl, rfl, rfl, rfl, rfl, rfl,
      fun _ => ⟨rfl, rfl⟩⟩

/-! ### C6 — leads at the retry cap are never selected -/

/-- A lead with a ledger entry has `hasLog`. -/
lemma latestLog_some_hasLog (logs : List GhlLogRow) (lid : Nat) (g : GhlLogRow)
    (h : latestLog logs lid = some g) : hasLog logs lid = true := by
  by_contra hn
  have hf : logs.filter (fun x => x.lead_id == lid) = [] := by
    rw [List.filter_eq_nil_iff]
    intro a ha hpa
    apply hn
    unfold hasLog
    rw [List.any_eq_true]
    exact ⟨a, ha, hpa⟩
  unfold latestLog at h
  rw [hf] at h
  exact Option.noConfusion h

/-- C6: a lead whose most recent delivery attempt is `failed` with
`retry_count` already at `max_retries` is never returned by
`get_leads_to_sync`, whatever the clock (so also after `next_retry_at` has
elapsed) and whatever the limit. -/
theorem max_retries_excluded (cfg : GhlCfg) (now : DateTime) (leads : List LeadRow)
    (logs : List GhlLogRow) (limit : Option Nat) (l : LeadRow) (g : GhlLogRow)
    (hg : latestLog logs l.id = some g)
    (hst : g.status = "failed")
    (hrc : g.retry_count = cfg.max_retries) :
    l ∉ get_leads_to_sync cfg now leads logs limit := by
  intro hmem
  have h1 : l ∈ (leads.filter (eligibleToSync cfg now logs)).mergeSort (syncOrder logs) :=
    List.take_subset _ _ hmem
  have h2 : l ∈ leads.filter (eligibleToSync cfg now logs) := List.mem_mergeSort.mp h1
  have h3 : eligibleToSync cfg now logs l = true := (List.mem_filter.mp h2).2
  have hlog : hasLog logs l.id = true := latestLog_some_hasLog logs l.id g hg
  unfold eligibleToSync at h3
  rw [hg, hlog] at h3
  simp [hst, hrc] at h3

/-- A lead whose single attempt sits at the retry cap, with its retry time
long elapsed. -/
def gMax : GhlLogRow :=
  { id := 1, lead_id := 1, email := "ab@cd.com", request_timestamp := 0,
    request_body := "", response_status_code := some 500, response_body := "",
    response_timestamp := 0, status := "failed", error_message := some "API error: 500",
    retry_count := 3, next_retry_at := some 0, ghl_contact_id := none,
    ghl_location_id := "loc" }

/-- The lead row owning `gMax`. -/
def leadEx : LeadRow :=
  { id := 1, email := "ab@cd.com", phone := "555", first_name := "A", last_name := "B",
    signup_date := 0, signup_datetime := 0, source := "wordpress", source_id := "7",
    phone_country := "", phone_type := none, phone_valid := false, email_valid := true,
    email_domain := some "cd.com", quality_score := 80, ghl_synced := false,
    ghl_synced_at := none, ghl_contact_id := none, ghl_sync_attempts := 3,
    updated_at := 0 }

/-- Witness for C6: the capped-out lead is excluded even at a clock far past
its `next_retry_at`. -/
theorem max_retries_excluded_witness :
    latestLog [gMax] leadEx.id = some gMax ∧
    leadEx ∉ get_leads_to_sync cfgEx 100000 [leadEx] [gMax] none :=
  ⟨by decide,
    max_retries_excluded cfgEx 100000 [leadEx] [gMax] none leadEx gMax
      (by decide) (by decide) (by decide)⟩

end LeadsExtractor
